import Mathlib

/-!
A shallow embedding of `src/charms/katib-ui/src/charm.py` (the katib-ui
charm's `Operator` class) and proofs about its reconciliation behaviour.

The Python handler `set_pod_spec` is modelled as a total function from an
`Input` record (leadership flag, the outcome of interface negotiation, the
outcomes of the two image-resource fetches, the `port` configuration value,
and the app/model names) to a list of `Effect`s, recording in order every
observable action the handler performs: status updates, the interface
negotiation call, image fetch calls, the ingress `send_data` payload, and
the `pod.set_spec` publication.  Python exceptions raised by the external
collaborators (`get_interfaces`, `OCIImageResource.fetch`) are modelled as
`Except` values in the input, exactly as the charm's `try`/`except` blocks
consume them.
-/

namespace KatibUI

/-- Opaque image details returned by `OCIImageResource.fetch`. -/
abbrev ImageDetails := String

/-- Unit status values (`ActiveStatus`, `WaitingStatus`, `BlockedStatus`,
`MaintenanceStatus` from `ops.model`). -/
inductive Status
  | active
  | waiting (msg : String)
  | blocked (msg : String)
  | maintenance (msg : String)
deriving DecidableEq, Repr

/-- The status constructor (`status_type`) carried by a `CheckFailed`
exception or declared by an `OCIImageResourceError`.  Modelled from the
spec: the resource provider classifies its errors as Waiting or Blocked
severity (`oci_image` is an external library, not under `src/`). -/
inductive StatusType
  | waiting
  | blocked
deriving DecidableEq, Repr

/-- Applying a status constructor to a message (`status_type(msg)`). -/
def StatusType.apply : StatusType → String → Status
  | .waiting, m => .waiting m
  | .blocked, m => .blocked m

/-- An `OCIImageResourceError`: carries its own declared status severity
and message (`e.status`, `e.status_type`, `e.status.message`). -/
structure ResourceError where
  statusType : StatusType
  msg : String
deriving DecidableEq, Repr

/-- `e.status` of an `OCIImageResourceError`. -/
def ResourceError.status (e : ResourceError) : Status :=
  e.statusType.apply e.msg

/-- The two negotiation exceptions of `serialized_data_interface`. -/
inductive InterfaceError
  | noVersionsListed (msg : String)
  | noCompatibleVersions (msg : String)
deriving DecidableEq, Repr

/-- The negotiated interface set; only the `ingress` entry is consumed,
and only its truthiness (`if interfaces["ingress"]:`). -/
structure Interfaces where
  ingress : Bool
deriving DecidableEq, Repr

/-- The payload sent over the ingress relation.  `pfx` models the
`"prefix"` key of the Python dict. -/
structure IngressPayload where
  pfx : String
  service : String
  port : Int
deriving DecidableEq, Repr

/-- One rule of the service-account role bundle. -/
structure Rule where
  apiGroups : List String
  resources : List String
  verbs : List String
deriving DecidableEq, Repr

/-- One service-account role. -/
structure Role where
  isGlobal : Bool
  rules : List Rule
deriving DecidableEq, Repr

/-- One declared container port. -/
structure PortDecl where
  name : String
  containerPort : Int
deriving DecidableEq, Repr

/-- One container definition of the pod spec. -/
structure Container where
  name : String
  command : List String
  args : List String
  imageDetails : ImageDetails
  ports : List PortDecl
  envConfig : List (String × String)
deriving DecidableEq, Repr

/-- The pod spec dict handed to `self.model.pod.set_spec`. -/
structure PodSpec where
  version : Nat
  serviceAccountRoles : List Role
  containers : List Container
deriving DecidableEq, Repr

/-- The inputs a single run of `set_pod_spec` consumes: leadership, the
outcome of `get_interfaces`, the outcomes of the first and second
`self.image.fetch()` calls, `self.model.config["port"]`,
`self.model.app.name` and `self.model.name`. -/
structure Input where
  isLeader : Bool
  interfacesResult : Except InterfaceError Interfaces
  fetchResult1 : Except ResourceError ImageDetails
  fetchResult2 : Except ResourceError ImageDetails
  port : Int
  appName : String
  modelName : String

/-- Every observable action of a run, in execution order. -/
inductive Effect
  | setStatus (s : Status)
  | getInterfaces
  | fetchImage
  | sendIngress (p : IngressPayload)
  | setSpec (spec : PodSpec)
deriving DecidableEq, Repr

/-- The service-account role bundle of the pod spec. -/
def saRoles : List Role :=
  [{ isGlobal := true,
     rules :=
       [{ apiGroups := [""],
          resources := ["configmaps", "namespaces"],
          verbs := ["*"] },
        { apiGroups := ["kubeflow.org"],
          resources := ["experiments", "trials", "suggestions"],
          verbs := ["*"] }] }]

/-- The pod spec dict built at the end of `set_pod_spec`. -/
def buildPodSpec (inp : Input) (image_details : ImageDetails) : PodSpec :=
  { version := 3,
    serviceAccountRoles := saRoles,
    containers :=
      [{ name := "katib-ui",
         command := ["./katib-ui"],
         args := ["--port=" ++ toString inp.port],
         imageDetails := image_details,
         ports := [{ name := "http", containerPort := inp.port }],
         envConfig := [("KATIB_CORE_NAMESPACE", inp.modelName)] }] }

/-- The payload of `_configure_ingress`'s `send_data` call. -/
def ingressPayload (inp : Input) : IngressPayload :=
  { pfx := "/katib/", service := inp.appName, port := inp.port }

/-- `Operator._configure_ingress`: send the payload iff the `ingress`
entry is truthy; otherwise do nothing. -/
def configure_ingress (inp : Input) (interfaces : Interfaces) : List Effect :=
  if interfaces.ingress then [.sendIngress (ingressPayload inp)] else []

/-- `Operator.set_pod_spec`, as the ordered list of effects it performs.
The `try` block runs `_check_leader`, `_get_interfaces`,
`_check_image_details` in order; a `CheckFailed` sets the carried status
and returns.  Then `_configure_ingress`, the Maintenance status, the
second `self.image.fetch()` (whose error sets `e.status` and returns),
and finally `pod.set_spec` plus the Active status. -/
def set_pod_spec (inp : Input) : List Effect :=
  if !inp.isLeader then
    [.setStatus (.waiting "Waiting for leadership")]
  else
    Effect.getInterfaces ::
      match inp.interfacesResult with
      | .error (.noVersionsListed msg) => [.setStatus (.waiting msg)]
      | .error (.noCompatibleVersions msg) => [.setStatus (.blocked msg)]
      | .ok interfaces =>
        Effect.fetchImage ::
          match inp.fetchResult1 with
          | .error e => [.setStatus (e.statusType.apply e.msg)]
          | .ok _ =>
            configure_ingress inp interfaces ++
              (Effect.setStatus (.maintenance "Setting pod spec") ::
                Effect.fetchImage ::
                  match inp.fetchResult2 with
                  | .error e => [.setStatus e.status]
                  | .ok image_details =>
                    [.setSpec (buildPodSpec inp image_details),
                     .setStatus .active])

/-- The status left in place at the end of a run: the last `setStatus`
effect of the trace, if any. -/
def finalStatus (t : List Effect) : Option Status :=
  t.foldl (fun acc e => match e with | .setStatus s => some s | _ => acc) none

/-- One entry of the sidebar `config` payload. -/
structure SidebarEntry where
  app : String
  position : Nat
  type : String
  link : String
  text : String
  icon : String
deriving DecidableEq, Repr

/-- The single sidebar entry published by `_on_sidebar_relation_joined`. -/
def sidebarEntry (appName : String) : SidebarEntry :=
  { app := appName,
    position := 5,
    type := "item",
    link := "/katib/",
    text := "Experiments (AutoML)",
    icon := "kubeflow:katib" }

/-- `Operator._on_sidebar_relation_joined`: the relation-data update it
performs, as `some (key, decoded JSON list)`, or `none` when the unit is
not leader and no data is mutated. -/
def on_sidebar_relation_joined (isLeader : Bool) (appName : String) :
    Option (String × List SidebarEntry) :=
  if !isLeader then none
  else some ("config", [sidebarEntry appName])

/-- `Operator._on_sidebar_relation_departed`: publish the empty list, or
mutate nothing when not leader. -/
def on_sidebar_relation_departed (isLeader : Bool) :
    Option (String × List SidebarEntry) :=
  if !isLeader then none
  else some ("config", [])

/-- A concrete, fully successful input, used to instantiate theorems with
hypotheses. -/
def sampleOkInput : Input :=
  { isLeader := true,
    interfacesResult := .ok { ingress := true },
    fetchResult1 := .ok "registry/katib-ui:v1",
    fetchResult2 := .ok "registry/katib-ui:v2",
    port := 8080,
    appName := "katib-ui",
    modelName := "kubeflow" }

/-- C1: whenever a run of `set_pod_spec` publishes a pod spec, that spec
has exactly one container, whose args list is exactly
`["--port=<port>"]` and whose single declared container port equals the
configured `port`. -/
theorem setSpec_container_port_args (inp : Input) (spec : PodSpec)
    (h : Effect.setSpec spec ∈ set_pod_spec inp) :
    spec.containers.length = 1 ∧
    ∀ c ∈ spec.containers,
      c.args = ["--port=" ++ toString inp.port] ∧
      c.ports = [{ name := "http", containerPort := inp.port }] := by
  obtain ⟨lead, ir, f1, f2, p, an, mn⟩ := inp
  cases lead with
  | false => simp [set_pod_spec] at h
  | true =>
    cases ir with
    | error e => cases e <;> simp [set_pod_spec] at h
    | ok ifs =>
      cases f1 with
      | error e => simp [set_pod_spec] at h
      | ok d =>
        cases f2 with
        | error e =>
          cases hi : ifs.ingress <;>
            simp [set_pod_spec, configure_ingress, hi] at h
        | ok d2 =>
          cases hi : ifs.ingress <;>
            simp [set_pod_spec, configure_ingress, hi] at h <;>
            subst h <;> simp [buildPodSpec]

/-- Witness for C1 at the concrete successful input. -/
theorem setSpec_container_port_args_witness :
    Effect.setSpec (buildPodSpec sampleOkInput "registry/katib-ui:v2") ∈
      set_pod_spec sampleOkInput ∧
    ((buildPodSpec sampleOkInput "registry/katib-ui:v2").containers.length = 1 ∧
     ∀ c ∈ (buildPodSpec sampleOkInput "registry/katib-ui:v2").containers,
       c.args = ["--port=" ++ toString sampleOkInput.port] ∧
       c.ports = [{ name := "http", containerPort := sampleOkInput.port }]) :=
  ⟨by decide, setSpec_container_port_args sampleOkInput _ (by decide)⟩

/-- C2: for a non-leader unit, `set_pod_spec` performs exactly one
effect: setting the Waiting("Waiting for leadership") status.  In
particular it publishes no pod spec, performs no interface negotiation,
no ingress send and no image fetch, and the leadership check
short-circuits everything else. -/
theorem not_leader_no_effects (inp : Input) (h : inp.isLeader = false) :
    set_pod_spec inp = [.setStatus (.waiting "Waiting for leadership")] ∧
    (∀ spec, Effect.setSpec spec ∉ set_pod_spec inp) ∧
    Effect.getInterfaces ∉ set_pod_spec inp ∧
    Effect.fetchImage ∉ set_pod_spec inp ∧
    (∀ p, Effect.sendIngress p ∉ set_pod_spec inp) ∧
    finalStatus (set_pod_spec inp) =
      some (.waiting "Waiting for leadership") := by
  simp [set_pod_spec, finalStatus, h]

/-- Witness for C2 at a concrete non-leader input. -/
theorem not_leader_no_effects_witness :
    ({ sampleOkInput with isLeader := false } : Input).isLeader = false ∧
    (set_pod_spec { sampleOkInput with isLeader := false } =
       [.setStatus (.waiting "Waiting for leadership")] ∧
     (∀ spec, Effect.setSpec spec ∉
        set_pod_spec { sampleOkInput with isLeader := false }) ∧
     Effect.getInterfaces ∉
        set_pod_spec { sampleOkInput with isLeader := false } ∧
     Effect.fetchImage ∉
        set_pod_spec { sampleOkInput with isLeader := false } ∧
     (∀ p, Effect.sendIngress p ∉
        set_pod_spec { sampleOkInput with isLeader := false }) ∧
     finalStatus (set_pod_spec { sampleOkInput with isLeader := false }) =
       some (.waiting "Waiting for leadership")) :=
  ⟨rfl, not_leader_no_effects { sampleOkInput with isLeader := false } rfl⟩

/-- C3: for a leader unit, a `NoVersionsListed` negotiation error yields
Waiting with that error's message and a `NoCompatibleVersions` error
yields Blocked with that error's message; in either case the run is
exactly the negotiation call followed by the status set, so no pod spec
is published. -/
theorem interface_error_status (inp : Input) (msg : String)
    (h : inp.isLeader = true) :
    (inp.interfacesResult = .error (.noVersionsListed msg) →
       set_pod_spec inp = [.getInterfaces, .setStatus (.waiting msg)]) ∧
    (inp.interfacesResult = .error (.noCompatibleVersions msg) →
       set_pod_spec inp = [.getInterfaces, .setStatus (.blocked msg)]) := by
  constructor <;> intro hi <;> simp [set_pod_spec, h, hi]

/-- Witness for C3 at a concrete input whose negotiation raises
`NoVersionsListed`. -/
theorem interface_error_status_witness :
    ({ sampleOkInput with
         interfacesResult :=
           .error (.noVersionsListed "List of versions not found") } :
       Input).isLeader = true ∧
    (({ sampleOkInput with
          interfacesResult :=
            .error (.noVersionsListed "List of versions not found") } :
        Input).interfacesResult =
          .error (.noVersionsListed "List of versions not found") →
       set_pod_spec
           { sampleOkInput with
               interfacesResult :=
                 .error (.noVersionsListed "List of versions not found") } =
         [.getInterfaces,
          .setStatus (.waiting "List of versions not found")]) ∧
    (({ sampleOkInput with
          interfacesResult :=
            .error (.noVersionsListed "List of versions not found") } :
        Input).interfacesResult =
          .error (.noCompatibleVersions "List of versions not found") →
       set_pod_spec
           { sampleOkInput with
               interfacesResult :=
                 .error (.noVersionsListed "List of versions not found") } =
         [.getInterfaces,
          .setStatus (.blocked "List of versions not found")]) :=
  ⟨rfl,
   interface_error_status
     { sampleOkInput with
         interfacesResult :=
           .error (.noVersionsListed "List of versions not found") }
     "List of versions not found" rfl⟩

/-- C4: when the image resource fetch fails at either checkpoint (the
pre-check fetch, or the fetch after ingress configuration), no pod spec
is published and the final status is exactly the error's own declared
severity applied to its own message. -/
theorem image_fetch_failure_no_publish (inp : Input) (ifs : Interfaces)
    (e : ResourceError)
    (hl : inp.isLeader = true) (hi : inp.interfacesResult = .ok ifs) :
    (inp.fetchResult1 = .error e →
       (∀ spec, Effect.setSpec spec ∉ set_pod_spec inp) ∧
       finalStatus (set_pod_spec inp) = some (e.statusType.apply e.msg)) ∧
    ((∃ d, inp.fetchResult1 = .ok d) → inp.fetchResult2 = .error e →
       (∀ spec, Effect.setSpec spec ∉ set_pod_spec inp) ∧
       finalStatus (set_pod_spec inp) = some (e.statusType.apply e.msg)) := by
  constructor
  · intro h1
    simp [set_pod_spec, finalStatus, hl, hi, h1]
  · rintro ⟨d, h1⟩ h2
    cases hin : ifs.ingress <;>
      simp [set_pod_spec, finalStatus, configure_ingress, ResourceError.status,
        hl, hi, h1, h2, hin]

/-- Witness for C4 at a concrete input whose second fetch fails. -/
theorem image_fetch_failure_no_publish_witness :
    ({ sampleOkInput with
         fetchResult2 :=
           .error { statusType := .blocked, msg := "Missing resource: oci-image" } } :
       Input).isLeader = true ∧
    ({ sampleOkInput with
         fetchResult2 :=
           .error { statusType := .blocked, msg := "Missing resource: oci-image" } } :
       Input).interfacesResult = .ok { ingress := true } ∧
    ((∃ d, ({ sampleOkInput with
                fetchResult2 :=
                  .error { statusType := .blocked,
                           msg := "Missing resource: oci-image" } } :
              Input).fetchResult1 = .ok d) ∧
     (∀ spec, Effect.setSpec spec ∉
        set_pod_spec
          { sampleOkInput with
              fetchResult2 :=
                .error { statusType := .blocked,
                         msg := "Missing resource: oci-image" } }) ∧
     finalStatus
         (set_pod_spec
           { sampleOkInput with
               fetchResult2 :=
                 .error { statusType := .blocked,
                          msg := "Missing resource: oci-image" } }) =
       some (StatusType.blocked.apply "Missing resource: oci-image")) :=
  ⟨rfl, rfl,
   ⟨"registry/katib-ui:v1", rfl⟩,
   (image_fetch_failure_no_publish
       { sampleOkInput with
           fetchResult2 :=
             .error { statusType := .blocked,
                      msg := "Missing resource: oci-image" } }
       { ingress := true }
       { statusType := .blocked, msg := "Missing resource: oci-image" }
       rfl rfl).2 ⟨"registry/katib-ui:v1", rfl⟩ rfl⟩

/-- C5: once the leadership, negotiation and pre-check fetch succeed, the
ingress payload `{prefix: "/katib/", service: <app>, port: <port>}` is
sent iff the `ingress` entry of the negotiated interface set is truthy;
when it is not, the step is skipped and the run still proceeds to the
Maintenance status (no error). -/
theorem ingress_sent_iff_present (inp : Input) (ifs : Interfaces)
    (d : ImageDetails)
    (hl : inp.isLeader = true) (hi : inp.interfacesResult = .ok ifs)
    (hf : inp.fetchResult1 = .ok d) :
    ((∃ p, Effect.sendIngress p ∈ set_pod_spec inp) ↔ ifs.ingress = true) ∧
    (ifs.ingress = true →
       Effect.sendIngress (ingressPayload inp) ∈ set_pod_spec inp) ∧
    Effect.setStatus (.maintenance "Setting pod spec") ∈ set_pod_spec inp := by
  cases hf2 : inp.fetchResult2 <;> cases hin : ifs.ingress <;>
    simp [set_pod_spec, configure_ingress, hl, hi, hf, hf2, hin]

/-- Witness for C5 at a concrete input with the ingress interface absent:
nothing is sent and the run still reaches the Maintenance status. -/
theorem ingress_sent_iff_present_witness :
    ({ sampleOkInput with interfacesResult := .ok { ingress := false } } :
       Input).isLeader = true ∧
    ({ sampleOkInput with interfacesResult := .ok { ingress := false } } :
       Input).interfacesResult = .ok { ingress := false } ∧
    ({ sampleOkInput with interfacesResult := .ok { ingress := false } } :
       Input).fetchResult1 = .ok "registry/katib-ui:v1" ∧
    (((∃ p, Effect.sendIngress p ∈
         set_pod_spec
           { sampleOkInput with interfacesResult := .ok { ingress := false } }) ↔
       ({ ingress := false } : Interfaces).ingress = true) ∧
     (({ ingress := false } : Interfaces).ingress = true →
        Effect.sendIngress
            (ingressPayload
              { sampleOkInput with interfacesResult := .ok { ingress := false } }) ∈
          set_pod_spec
            { sampleOkInput with interfacesResult := .ok { ingress := false } }) ∧
     Effect.setStatus (.maintenance "Setting pod spec") ∈
       set_pod_spec
         { sampleOkInput with interfacesResult := .ok { ingress := false } }) :=
  ⟨rfl, rfl, rfl,
   ingress_sent_iff_present
     { sampleOkInput with interfacesResult := .ok { ingress := false } }
     { ingress := false } "registry/katib-ui:v1" rfl rfl rfl⟩

/-- C6: `set_pod_spec` is total, every run ends by setting a unit status
(the only user-visible outcome of a failed run), and that final status is
Active exactly when a pod spec was published; the sidebar handlers are
total as well, yielding either no mutation or a relation-data update. -/
theorem handler_ends_with_status (inp : Input) (lead : Bool) (app : String) :
    (∃ s, (set_pod_spec inp).getLast? = some (Effect.setStatus s) ∧
       ((∃ spec, Effect.setSpec spec ∈ set_pod_spec inp) ↔ s = Status.active)) ∧
    (on_sidebar_relation_joined lead app = none ∨
       ∃ v, on_sidebar_relation_joined lead app = some v) ∧
    (on_sidebar_relation_departed lead = none ∨
       ∃ v, on_sidebar_relation_departed lead = some v) := by
  refine ⟨?_, ?_, ?_⟩
  · obtain ⟨l, ir, f1, f2, p, an, mn⟩ := inp
    cases l with
    | false =>
      exact ⟨.waiting "Waiting for leadership", by simp [set_pod_spec],
        by simp [set_pod_spec]⟩
    | true =>
      cases ir with
      | error e =>
        cases e with
        | noVersionsListed msg =>
          exact ⟨.waiting msg, by simp [set_pod_spec], by simp [set_pod_spec]⟩
        | noCompatibleVersions msg =>
          exact ⟨.blocked msg, by simp [set_pod_spec], by simp [set_pod_spec]⟩
      | ok ifs =>
        cases f1 with
        | error e =>
          obtain ⟨st, m⟩ := e
          cases st with
          | waiting =>
            exact ⟨.waiting m, by simp [set_pod_spec, StatusType.apply],
              by simp [set_pod_spec, StatusType.apply]⟩
          | blocked =>
            exact ⟨.blocked m, by simp [set_pod_spec, StatusType.apply],
              by simp [set_pod_spec, StatusType.apply]⟩
        | ok d =>
          cases f2 with
          | error e =>
            obtain ⟨st, m⟩ := e
            cases st with
            | waiting =>
              refine ⟨.waiting m, ?_, ?_⟩ <;> cases hin : ifs.ingress <;>
                simp [set_pod_spec, configure_ingress, ResourceError.status,
                  StatusType.apply, hin]
            | blocked =>
              refine ⟨.blocked m, ?_, ?_⟩ <;> cases hin : ifs.ingress <;>
                simp [set_pod_spec, configure_ingress, ResourceError.status,
                  StatusType.apply, hin]
          | ok d2 =>
            refine ⟨.active, ?_, ?_⟩ <;> cases hin : ifs.ingress <;>
              simp [set_pod_spec, configure_ingress, hin]
  · cases lead with
    | false => exact .inl rfl
    | true => exact .inr ⟨_, rfl⟩
  · cases lead with
    | false => exact .inl rfl
    | true => exact .inr ⟨_, rfl⟩

/-- C7: a sidebar relation-joined by the leader writes under key
`config` the singleton list with the exact sidebar entry; a
relation-departed by the leader writes the empty list under the same
key; either event on a non-leader unit mutates no relation data. -/
theorem sidebar_handlers_behaviour (app : String) :
    on_sidebar_relation_joined true app =
      some ("config",
        [{ app := app, position := 5, type := "item", link := "/katib/",
           text := "Experiments (AutoML)", icon := "kubeflow:katib" }]) ∧
    on_sidebar_relation_departed true = some ("config", []) ∧
    on_sidebar_relation_joined false app = none ∧
    on_sidebar_relation_departed false = none :=
  ⟨rfl, rfl, rfl, rfl⟩

/-- The end-to-end input of C8: leader, port 8080, compatible ingress
interface present, both fetches succeeding. -/
def endToEndInput (app ns d1 d2 : String) : Input :=
  { isLeader := true,
    interfacesResult := .ok { ingress := true },
    fetchResult1 := .ok d1,
    fetchResult2 := .ok d2,
    port := 8080,
    appName := app,
    modelName := ns }

/-- C8: end-to-end, with leader, port 8080, ingress interface present and
both fetches succeeding, the run ends Active, publishes the version-3 pod
spec with the single `katib-ui` container (command `./katib-ui`,
container port 8080, env `KATIB_CORE_NAMESPACE` = the model name), and
sends the ingress payload `{prefix: "/katib/", service: <app>, port:
8080}`. -/
theorem end_to_end_success (app ns d1 d2 : String) :
    finalStatus (set_pod_spec (endToEndInput app ns d1 d2)) =
      some Status.active ∧
    Effect.setSpec
        { version := 3,
          serviceAccountRoles := saRoles,
          containers :=
            [{ name := "katib-ui",
               command := ["./katib-ui"],
               args := ["--port=8080"],
               imageDetails := d2,
               ports := [{ name := "http", containerPort := 8080 }],
               envConfig := [("KATIB_CORE_NAMESPACE", ns)] }] } ∈
      set_pod_spec (endToEndInput app ns d1 d2) ∧
    Effect.sendIngress { pfx := "/katib/", service := app, port := 8080 } ∈
      set_pod_spec (endToEndInput app ns d1 d2) := by
  have hargs : "--port=" ++ toString (8080 : Int) = "--port=8080" := rfl
  refine ⟨?_, ?_, ?_⟩ <;>
    simp [set_pod_spec, configure_ingress, finalStatus, endToEndInput,
      buildPodSpec, ingressPayload, hargs]

/-- Counts the image fetch calls recorded in a trace. -/
def isFetch : Effect → Bool
  | .fetchImage => true
  | _ => false

/-- The number of `self.image.fetch()` calls a run performs. -/
def countFetches (t : List Effect) : Nat :=
  t.countP isFetch

/-- C9: once the leadership, negotiation and first image checks pass, the
image fetch is invoked exactly twice; the published pod spec carries the
second fetch's result, and the run does not depend on the first fetch's
value at all (no caching). -/
theorem double_fetch_uses_second (inp : Input) (ifs : Interfaces)
    (d : ImageDetails)
    (hl : inp.isLeader = true) (hi : inp.interfacesResult = .ok ifs)
    (hf : inp.fetchResult1 = .ok d) :
    countFetches (set_pod_spec inp) = 2 ∧
    (∀ d2 spec, inp.fetchResult2 = .ok d2 →
       Effect.setSpec spec ∈ set_pod_spec inp →
       ∀ c ∈ spec.containers, c.imageDetails = d2) ∧
    (∀ d3, set_pod_spec { inp with fetchResult1 := .ok d3 } =
       set_pod_spec inp) := by
  refine ⟨?_, ?_, ?_⟩
  · cases hf2 : inp.fetchResult2 <;> cases hin : ifs.ingress <;>
      simp [set_pod_spec, configure_ingress, countFetches, isFetch,
        List.countP_cons, hl, hi, hf, hf2, hin]
  · intro d2 spec h2 hmem
    cases hin : ifs.ingress <;>
      simp [set_pod_spec, configure_ingress, hl, hi, hf, h2, hin] at hmem <;>
      subst hmem <;> simp [buildPodSpec]
  · intro d3
    cases hf2 : inp.fetchResult2 <;>
      simp [set_pod_spec, configure_ingress, ingressPayload, buildPodSpec,
        hl, hi, hf, hf2]

/-- Witness for C9 at the concrete successful input. -/
theorem double_fetch_uses_second_witness :
    sampleOkInput.isLeader = true ∧
    sampleOkInput.interfacesResult = .ok { ingress := true } ∧
    sampleOkInput.fetchResult1 = .ok "registry/katib-ui:v1" ∧
    (countFetches (set_pod_spec sampleOkInput) = 2 ∧
     (∀ d2 spec, sampleOkInput.fetchResult2 = .ok d2 →
        Effect.setSpec spec ∈ set_pod_spec sampleOkInput →
        ∀ c ∈ spec.containers, c.imageDetails = d2) ∧
     (∀ d3, set_pod_spec { sampleOkInput with fetchResult1 := .ok d3 } =
        set_pod_spec sampleOkInput)) :=
  ⟨rfl, rfl, rfl,
   double_fetch_uses_second sampleOkInput { ingress := true }
     "registry/katib-ui:v1" rfl rfl rfl⟩

/-- C10: when the three pre-checks succeed but the second fetch fails,
the run is exactly: negotiation, first fetch, the ingress send (when the
interface is present), the Maintenance("Setting pod spec") status, the
second fetch, and then the error's status — so the ingress side effect
and the Maintenance status have already happened before the failure, and
only the pod spec publication is withheld. -/
theorem second_fetch_failure_after_ingress (inp : Input) (ifs : Interfaces)
    (d : ImageDetails) (e : ResourceError)
    (hl : inp.isLeader = true) (hi : inp.interfacesResult = .ok ifs)
    (hf : inp.fetchResult1 = .ok d) (h2 : inp.fetchResult2 = .error e) :
    set_pod_spec inp =
      [Effect.getInterfaces, Effect.fetchImage] ++
      (if ifs.ingress then [Effect.sendIngress (ingressPayload inp)]
       else []) ++
      [Effect.setStatus (.maintenance "Setting pod spec"),
       Effect.fetchImage,
       Effect.setStatus (e.statusType.apply e.msg)] := by
  cases hin : ifs.ingress <;>
    simp [set_pod_spec, configure_ingress, ResourceError.status,
      hl, hi, hf, h2, hin]

/-- Witness for C10 at a concrete input whose second fetch fails. -/
theorem second_fetch_failure_after_ingress_witness :
    ({ sampleOkInput with
         fetchResult2 :=
           .error { statusType := .waiting,
                    msg := "Resource not yet available" } } :
       Input).isLeader = true ∧
    set_pod_spec
        { sampleOkInput with
            fetchResult2 :=
              .error { statusType := .waiting,
                       msg := "Resource not yet available" } } =
      [Effect.getInterfaces, Effect.fetchImage] ++
      (if ({ ingress := true } : Interfaces).ingress then
         [Effect.sendIngress
           (ingressPayload
             { sampleOkInput with
                 fetchResult2 :=
                   .error { statusType := .waiting,
                            msg := "Resource not yet available" } })]
       else []) ++
      [Effect.setStatus (.maintenance "Setting pod spec"),
       Effect.fetchImage,
       Effect.setStatus (StatusType.waiting.apply "Resource not yet available")] :=
  ⟨rfl,
   second_fetch_failure_after_ingress
     { sampleOkInput with
         fetchResult2 :=
           .error { statusType := .waiting,
                    msg := "Resource not yet available" } }
     { ingress := true } "registry/katib-ui:v1"
     { statusType := .waiting, msg := "Resource not yet available" }
     rfl rfl rfl rfl⟩

end KatibUI
